import Mathlib

/-!
Verification of the SSH session-management core of the LT-panle backend
(src/backend/app).  The definitions below are a shallow embedding of the
Python source: the connection registry and factory (api/server_ssh.py),
the asyncssh terminal variant (api/server_ssh_asyncssh.py), private-key
loading (core/ssh_utils.py), the command executor (api/server_ssh.py),
and the disk-usage parser (api/server_info.py).  External collaborators
(the decryption service, paramiko/asyncssh parsers, the filesystem and
the network) are oracles passed in as parameters.
-/

namespace LTPanel

/-- JSON frames the server sends to the client over the WebSocket
(message formats documented in server_ssh.py lines 178-181 and
server_ssh_asyncssh.py lines 120-125). -/
inductive Frame where
  | connected (message : String)
  | output (data : String)
  | error (message : String)
deriving DecidableEq

/-- The transport object behind paramiko's SSHClient.get_transport. -/
structure SSHTransport where
  is_active : Bool
deriving DecidableEq

/-- A paramiko SSHClient object as the registry observes it: an
identifying tag plus its transport; transport = none models
get_transport returning None (or raising, caught at
server_ssh.py lines 45-46). -/
structure SSHClientObj where
  tag : Nat
  transport : Option SSHTransport
deriving DecidableEq

/-- Liveness check performed by the registry (server_ssh.py lines
42-43): the transport exists and reports itself active. -/
def clientAlive (c : SSHClientObj) : Bool :=
  match c.transport with
  | some t => t.is_active
  | none => false

/-- One value of the ssh_connections dict (server_ssh.py lines 110-115). -/
structure ConnEntry where
  client : SSHClientObj
  server_id : Nat
  credential_id : Nat
  created_at : Nat
deriving DecidableEq

/-- The module-level ssh_connections dict (server_ssh.py line 32).  The
dict key is the string "server_id:credential_id"; that rendering is
injective, so the pair is used directly here. -/
abbrev Registry := List ((Nat × Nat) × ConnEntry)

/-- Dict lookup. -/
def regLookup (r : Registry) (k : Nat × Nat) : Option ConnEntry :=
  (r.find? (fun p => p.1 == k)).map (fun p => p.2)

/-- Dict assignment d[k] = v : at most one binding per key. -/
def regInsert (r : Registry) (k : Nat × Nat) (e : ConnEntry) : Registry :=
  (k, e) :: r.filter (fun p => !(p.1 == k))

/-- get_ssh_connection (server_ssh.py lines 35-48): return the cached
client only when its transport is live.  The function performs no
mutation of the dict, so the unchanged registry is returned alongside
the lookup result. -/
def get_ssh_connection (r : Registry) (server_id credential_id : Nat) :
    Option SSHClientObj × Registry :=
  match regLookup r (server_id, credential_id) with
  | some info =>
    if clientAlive info.client then (some info.client, r) else (none, r)
  | none => (none, r)

/-- close_ssh_connection (server_ssh.py lines 153-161): close the stored
client, then delete the dict entry.  The second component lists the
clients the operation closed. -/
def close_ssh_connection (r : Registry) (server_id credential_id : Nat) :
    Registry × List SSHClientObj :=
  match regLookup r (server_id, credential_id) with
  | some info =>
    (r.filter (fun p => !(p.1 == (server_id, credential_id))), [info.client])
  | none => (r, [])

/-- The registry write performed on factory success (server_ssh.py lines
109-115): a plain dict assignment.  Second component: clients this
operation closed (none — the replaced entry is only overwritten). -/
def registry_put (r : Registry) (k : Nat × Nat) (e : ConnEntry) :
    Registry × List SSHClientObj :=
  (regInsert r k e, [])

/-! ## Credentials and private-key loading (core/ssh_utils.py) -/

/-- Python truthiness of an optional string field. -/
def pyTruthyStr : Option String → Bool
  | some s => !s.isEmpty
  | none => false

inductive KeyFormat where
  | RSA | ECDSA | Ed25519 | DSA
deriving DecidableEq

/-- The fixed parse order of ssh_utils.py lines 82-119. -/
def formatOrder : List KeyFormat := [.RSA, .ECDSA, .Ed25519, .DSA]

def formatIdx : KeyFormat → Nat
  | .RSA => 0
  | .ECDSA => 1
  | .Ed25519 => 2
  | .DSA => 3

/-- A paramiko key object produced by a successful parse. -/
structure ParsedKey where
  fmt : KeyFormat
  tag : Nat
deriving DecidableEq

/-- A FastAPI HTTPException: status code and detail text. -/
structure HTTPErr where
  status_code : Nat
  detail : String
deriving DecidableEq

inductive CredType where
  | password | ssh_key | other
deriving DecidableEq

/-- A credential row (models/credential.py) as read by the SSH core. -/
structure CredentialRec where
  id : Nat
  username : String
  credential_type : CredType
  password_encrypted : Option String
  ssh_key_path : Option String
deriving DecidableEq

/-- External collaborators: the decryption service (decrypt returning
none models a raised exception), paramiko's per-format parsers on
inline content and on a key file path, and the filesystem. -/
structure SSHEnv where
  decrypt : String → Option String
  parseKey : KeyFormat → String → Option ParsedKey
  parseKeyFile : KeyFormat → String → Option ParsedKey
  fileExists : String → Bool
  expanduser : String → String

/-- Python str.strip at the character-list level. -/
def pyTrimChars (cs : List Char) : List Char :=
  ((cs.dropWhile Char.isWhitespace).reverse.dropWhile Char.isWhitespace).reverse

/-- Python str.strip. -/
def pyStrip (s : String) : String := String.mk (pyTrimChars s.data)

/-- One try-each-format sequence (ssh_utils.py lines 82-119 and
165-194): attempt the formats in order, returning the first success and
the list of formats actually attempted. -/
def tryFormats (parse : KeyFormat → Option ParsedKey) :
    List KeyFormat → Option ParsedKey × List KeyFormat
  | [] => (none, [])
  | f :: fs =>
    match parse f with
    | some k => (some k, [f])
    | none =>
      let r := tryFormats parse fs
      (r.1, f :: r.2)

/-- Path-based stage of load_ssh_private_key (ssh_utils.py lines
145-199): expanduser, existence check with a distinct error, then the
four-format attempt sequence on the file. -/
def loadKeyFromPath (env : SSHEnv) (p : String) : Except HTTPErr ParsedKey :=
  let kp := env.expanduser p
  if !env.fileExists kp then
    .error ⟨400, "私钥文件不存在: " ++ kp ++ "。请确保私钥文件在后端服务器上。"⟩
  else
    match (tryFormats (fun f => env.parseKeyFile f kp) formatOrder).1 with
    | some k => .ok k
    | none => .error ⟨400, "无法加载私钥文件 " ++ kp⟩

/-- load_ssh_private_key (ssh_utils.py lines 49-213).  Inline encrypted
content, when present (truthy), is decrypted and parsed as RSA → ECDSA
→ Ed25519 → DSA; only when all four fail (or decryption raises) and a
path is configured does loading fall through to the path.  The second
component records which formats were attempted on the inline content
(empty when the inline stage was not reached). -/
def load_ssh_private_key (env : SSHEnv) (cred : CredentialRec) :
    Except HTTPErr ParsedKey × List KeyFormat :=
  let pathOpt : Option String :=
    match cred.ssh_key_path with
    | some p => if p.isEmpty then none else some p
    | none => none
  let pathStage : Except HTTPErr ParsedKey :=
    match pathOpt with
    | some p => loadKeyFromPath env p
    | none => .error ⟨400, "SSH密钥认证失败：请提供私钥内容或私钥路径"⟩
  match cred.password_encrypted with
  | some blob =>
    if blob.isEmpty then (pathStage, [])
    else
      match env.decrypt blob with
      | none =>
        -- decrypt_password raised (ssh_utils.py lines 131-142)
        match pathOpt with
        | some p => (loadKeyFromPath env p, [])
        | none => (.error ⟨400, "私钥内容解密失败"⟩, [])
      | some content0 =>
        let content := pyStrip content0
        let r := tryFormats (fun f => env.parseKey f content) formatOrder
        match r.1 with
        | some k => (.ok k, r.2)
        | none =>
          -- all four inline formats failed (ssh_utils.py lines 117-128)
          match pathOpt with
          | some p => (loadKeyFromPath env p, r.2)
          | none => (.error ⟨400, "无法解析私钥内容"⟩, r.2)
  | none => (pathStage, [])

/-! ## Connection factory (api/server_ssh.py lines 51-150) -/

/-- A server row (models/server.py) as read by the SSH core;
jump_host is the truthiness of the jump-host relationship. -/
structure ServerRec where
  id : Nat
  host : String
  port : Option Nat
  jump_host : Bool
deriving DecidableEq

/-- Outcome of the network-level connect call, abstracted as an oracle
(the network is outside the program). -/
inductive ConnectOutcome where
  | ok (client : SSHClientObj)
  | authFail (msg : String)
  | sshErr (msg : String)
  | otherErr (msg : String)
deriving DecidableEq

/-- The kind-specific authentication-failure explanation built in
create_ssh_connection (server_ssh.py lines 119-132). -/
def authErrorMsg (ct : CredType) (e : String) : String :=
  match ct with
  | .password => "SSH认证失败，请检查用户名和密码是否正确"
  | .ssh_key =>
    "SSH认证失败。可能的原因：\n" ++
    "1. 私钥与服务器上的公钥不匹配\n" ++
    "2. 服务器未配置对应的公钥（需要将公钥添加到 ~/.ssh/authorized_keys）\n" ++
    "3. 用户名不正确\n" ++
    "4. 私钥格式错误或已损坏\n" ++
    "\n详细错误: " ++ e
  | .other => "SSH认证失败。详细错误: " ++ e

/-- create_ssh_connection (server_ssh.py lines 51-150): resolve the
secret, pick the authentication material, fail fast on a jump host
(line 98, before ssh.connect), connect, and on success store the new
client in the ssh_connections dict itself (lines 108-115), returning
the client together with the updated registry.  Every failure is
converted to an HTTPException. -/
def create_ssh_connection (env : SSHEnv) (r : Registry) (server : ServerRec)
    (cred : CredentialRec) (net : ConnectOutcome) (now : Nat) :
    Except HTTPErr (SSHClientObj × Registry) :=
  let secret : Except HTTPErr (Option ParsedKey × Option String) :=
    match cred.credential_type with
    | .password =>
      match cred.password_encrypted.bind env.decrypt with
      | some pw => .ok (none, some pw)
      | none => .error ⟨500, "连接失败: 解密失败"⟩
    | .ssh_key =>
      match (load_ssh_private_key env cred).1 with
      | .ok k => .ok (some k, none)
      | .error e => .error e
    | .other => .error ⟨400, "不支持的凭据类型"⟩
  match secret with
  | .error e => .error e
  | .ok (pkey, password) =>
    -- authentication parameter selection (lines 87-95)
    let haveAuth : Bool :=
      ((cred.credential_type == CredType.ssh_key) && pkey.isSome) ||
        pyTruthyStr password
    if !haveAuth then .error ⟨400, "缺少认证信息：需要密码或SSH密钥"⟩
    else if server.jump_host then
      -- jump-host fail-fast (lines 98-103), before any connect attempt
      .error ⟨501, "跳板机连接暂未实现"⟩
    else
      match net with
      | .ok c =>
        .ok (c, regInsert r (server.id, cred.id) ⟨c, server.id, cred.id, now⟩)
      | .authFail e => .error ⟨400, authErrorMsg cred.credential_type e⟩
      | .sshErr e => .error ⟨500, "SSH连接错误: " ++ e⟩
      | .otherErr e => .error ⟨500, "连接失败: " ++ e⟩

/-- The connection-establishment phase of the ssh_terminal WebSocket
handler (server_ssh.py lines 266-299): pool lookup first; on a miss the
factory is called, and a factory failure sends exactly one error frame
and closes the WebSocket.  Result: frames sent, registry afterwards,
whether the server closed the WebSocket, and the client obtained. -/
def ssh_terminal_connect (env : SSHEnv) (r : Registry) (server : ServerRec)
    (cred : CredentialRec) (net : ConnectOutcome) (now : Nat) :
    List Frame × Registry × Bool × Option SSHClientObj :=
  match get_ssh_connection r server.id cred.id with
  | (some c, r') => ([], r', false, some c)
  | (none, r') =>
    match create_ssh_connection env r' server cred net now with
    | .ok (c, r'') => ([], r'', false, some c)
    | .error e => ([Frame.error e.detail], r', true, none)

/-! ## Session teardown (C1) -/

/-- Resource-release operations a session teardown can perform. -/
inductive TeardownAction where
  | cancelReader
  | closeShellChannel
  | closeTransport
  | unlinkTmpKey
  | closeWebSocket
deriving DecidableEq

/-- Exit paths of the paramiko ssh_terminal handler from the point the
shell channel exists (server_ssh.py lines 339-449). -/
inductive PkExitPath where
  | connectedSendConnClosed
  | connectedSendOtherError
  | clientCloseFrame
  | clientDisconnect
  | messageLoopError
deriving DecidableEq

/-- Teardown actions of ssh_terminal on each exit path.  The two early
paths (the "connected" frame could not be delivered, lines 347-365)
close the channel directly; every path through the message loop shares
the finally block (lines 436-449), which cancels the reader task and
closes the shell channel.  No path closes the pooled SSHClient. -/
def ssh_terminal_teardown : PkExitPath → List TeardownAction
  | .connectedSendConnClosed => [.closeShellChannel]
  | .connectedSendOtherError => [.closeShellChannel]
  | .clientCloseFrame => [.cancelReader, .closeShellChannel]
  | .clientDisconnect => [.cancelReader, .closeShellChannel]
  | .messageLoopError => [.cancelReader, .closeShellChannel]

/-- Teardown of ssh_terminal_asyncssh once the shell process exists:
the inner finally (server_ssh_asyncssh.py lines 436-444) closes the
process, then the outer finally (lines 474-511) closes the process
again, closes the per-session SSH connection, removes the temporary key
file when one was written, and closes the WebSocket when still open. -/
def ssh_terminal_asyncssh_teardown (hasTmpKey wsStillOpen : Bool) :
    List TeardownAction :=
  [.closeShellChannel] ++
  [.closeShellChannel, .closeTransport] ++
  (if hasTmpKey then [.unlinkTmpKey] else []) ++
  (if wsStillOpen then [.closeWebSocket] else [])

/-! ## Reader loops and idle timeout (C6) -/

/-- Idle window of the asyncssh terminal
(server_ssh_asyncssh.py line 257): 30 * 60 seconds. -/
def IDLE_TIMEOUT : ℚ := 30 * 60

/-- What one iteration of the asyncssh read_output loop observes after
the idle check: the 0.5 s bounded read, and — after a completed read —
the process exit-status check (server_ssh_asyncssh.py lines 330-356).
A TimeoutError skips the exit check via continue (line 342). -/
inductive ReadEvent where
  | data (s : String) (exitAfter : Option Int)
  | timeoutTick
  | readError (closedLike : Bool) (msg : String)
deriving DecidableEq

/-- One loop iteration's observation, stamped with the event-loop time
seen at the top of the iteration (line 317). -/
structure Poll where
  now : ℚ
  ev : ReadEvent
deriving DecidableEq

/-- One iteration of read_output (server_ssh_asyncssh.py lines 314-373):
the idle check runs first; crossing the window sends exactly one
idle-timeout notice and stops the loop.  Otherwise the read outcome is
handled; non-empty data refreshes the last-activity time.  Result:
frames sent, new last-activity time, and whether the loop continues. -/
def read_output_step (last : ℚ) (p : Poll) : List Frame × ℚ × Bool :=
  if p.now - last > IDLE_TIMEOUT then
    ([Frame.error "连接因空闲超时已关闭"], last, false)
  else
    match p.ev with
    | .data s exitAfter =>
      let outFrames := if s.isEmpty then [] else [Frame.output s]
      let last' := if s.isEmpty then last else p.now
      match exitAfter with
      | some code =>
        (outFrames ++
           [Frame.error ("Shell进程已退出 (退出码: " ++ toString code ++ ")")],
         last', false)
      | none => (outFrames, last', true)
    | .timeoutTick => ([], last, true)
    | .readError true _ => ([], last, false)
    | .readError false m => ([Frame.error ("读取输出失败: " ++ m)], last, false)

/-- The read_output loop over a sequence of observed iterations. -/
def read_output_run (last : ℚ) : List Poll → List Frame
  | [] => []
  | p :: ps =>
    let st := read_output_step last p
    st.1 ++ (if st.2.2 then read_output_run st.2.1 ps else [])

/-- What one polling iteration of the paramiko receive_from_ssh loop
observes (server_ssh.py lines 370-391). -/
inductive PkPoll where
  | recvReady (data : String)
  | exitStatusReady
  | nothingReady
deriving DecidableEq

/-- One iteration of receive_from_ssh (server_ssh.py lines 370-391):
forward ready output, announce the end of the SSH session when the exit
status is ready, otherwise sleep 0.05 s and poll again.  This loop
contains no idle-timeout check of any kind. -/
def receive_from_ssh_step : PkPoll → List Frame × Bool
  | .recvReady d => ([Frame.output d], true)
  | .exitStatusReady => ([Frame.output "\r\n[SSH会话已结束]\r\n"], false)
  | .nothingReady => ([], true)

/-- The receive_from_ssh loop over a sequence of observed iterations:
frames sent and whether the loop is still running afterwards. -/
def receive_from_ssh_run : List PkPoll → List Frame × Bool
  | [] => ([], true)
  | p :: ps =>
    let st := receive_from_ssh_step p
    if st.2 then
      let rest := receive_from_ssh_run ps
      (st.1 ++ rest.1, rest.2)
    else (st.1, false)

/-! ## Command executor (api/server_ssh.py lines 788-845) -/

/-- The response object of the execute endpoint (lines 833-839). -/
structure CommandResult where
  success : Bool
  exit_status : Int
  output : String
  error : String
  command : String
deriving DecidableEq

/-- Outcome of exec_command plus the channel reads, abstracted as an
oracle: either the command ran to completion (any exit status) or the
transport raised mid-run. -/
inductive ExecOutcome where
  | completed (exit_status : Int) (stdout stderr : String)
  | raised (msg : String)
deriving DecidableEq

/-- The command-execution body of the execute endpoint (server_ssh.py
lines 824-845): success is strictly exit status 0; stdout and stderr
are captured independently; only a raised exception becomes an HTTP
error. -/
def execute_command (cmd : String) (o : ExecOutcome) :
    Except HTTPErr CommandResult :=
  match o with
  | .completed e out err => .ok ⟨e == 0, e, out, err, cmd⟩
  | .raised m => .error ⟨500, "命令执行失败: " ++ m⟩

/-! ## The asyncssh connection factory (api/server_ssh_asyncssh.py) -/

inductive AuthMaterial where
  | pw (s : String)
  | keyFiles (paths : List String)
deriving DecidableEq

/-- The keyword arguments passed to asyncssh.connect
(server_ssh_asyncssh.py lines 38-46 plus the authentication field). -/
structure ConnParams where
  host : String
  port : Nat
  username : String
  auth : AuthMaterial
deriving DecidableEq

/-- Parameter building of get_ssh_connection_async
(server_ssh_asyncssh.py lines 37-81).  For ssh_key credentials the key
path takes priority; inline content is decrypted to a temporary file
(tmpName).  Note: no jump-host inspection occurs anywhere in this
factory.  Second component: the temporary key file written, if any. -/
def async_connect_params (env : SSHEnv) (tmpName : String)
    (server : ServerRec) (cred : CredentialRec) :
    Except String (ConnParams × Option String) :=
  match cred.credential_type with
  | .password =>
    match cred.password_encrypted.bind env.decrypt with
    | some pw =>
      .ok (⟨server.host, server.port.getD 22, cred.username, .pw pw⟩, none)
    | none => .error "解密失败"
  | .ssh_key =>
    if pyTruthyStr cred.ssh_key_path then
      let kp := env.expanduser (cred.ssh_key_path.getD "")
      if env.fileExists kp then
        .ok (⟨server.host, server.port.getD 22, cred.username,
              .keyFiles [kp]⟩, none)
      else .error ("SSH密钥文件不存在: " ++ kp)
    else if pyTruthyStr cred.password_encrypted then
      match (cred.password_encrypted.getD "") |> env.decrypt with
      | some _ =>
        .ok (⟨server.host, server.port.getD 22, cred.username,
              .keyFiles [tmpName]⟩, some tmpName)
      | none => .error "无法处理SSH密钥"
    else .error "SSH密钥认证需要提供密钥文件路径或密钥内容"
  | .other => .error "不支持的凭据类型"

/-- get_ssh_connection_async (server_ssh_asyncssh.py lines 24-107):
build the parameters, then call asyncssh.connect; errors are re-raised
after temporary-file cleanup.  There is no registry interaction and no
jump-host check: the connection goes directly to server.host. -/
def get_ssh_connection_async (env : SSHEnv) (tmpName : String)
    (server : ServerRec) (cred : CredentialRec) (net : ConnectOutcome) :
    Except String (SSHClientObj × Option String) :=
  match async_connect_params env tmpName server cred with
  | .error m => .error m
  | .ok (_, tmp) =>
    match net with
    | .ok c => .ok (c, tmp)
    | .authFail m => .error m
    | .sshErr m => .error m
    | .otherErr m => .error m

/-! ## Disk-usage parsing (api/server_info.py lines 106-181) -/

/-- The character class of the regex group [\d.]+ . -/
def isDigitOrDot (c : Char) : Bool := c.isDigit || c == '.'

/-- Value of a decimal digit string (most significant first). -/
def digitsToNat (ds : List Char) : Nat :=
  ds.foldl (fun a c => a * 10 + (c.toNat - 48)) 0

/-- The base-1024 multipliers of parse_size_to_bytes
(server_info.py line 113). -/
def sizeMultiplier (c : Char) : Option Nat :=
  if c == 'K' then some 1024
  else if c == 'M' then some (1024 ^ 2)
  else if c == 'G' then some (1024 ^ 3)
  else if c == 'T' then some (1024 ^ 4)
  else none

/-- A nonnegative decimal value num / den with den the power of ten
given by the fractional digits (a [\d.]+ regex match is never
negative).  Binary-float rounding of Python float() is abstracted to
the exact decimal value — exact for the integral df fields the claims
are about. -/
structure PyDecimal where
  num : Nat
  den : Nat
deriving DecidableEq

/-- The value Python float() assigns to a string of digits and dots:
defined when there is at least one digit and at most one dot, otherwise
float() raises ValueError.  Exponent notation cannot occur inside a
[\d.]+ match. -/
def decimalValue (cs : List Char) : Option PyDecimal :=
  if cs.all isDigitOrDot ∧ cs.any Char.isDigit ∧ cs.count '.' ≤ 1 then
    let ip := cs.takeWhile Char.isDigit
    let fp := (cs.dropWhile Char.isDigit).drop 1
    some ⟨digitsToNat ip * 10 ^ fp.length + digitsToNat fp, 10 ^ fp.length⟩
  else none

/-- Python int() truncation on a nonnegative decimal value. -/
def pyInt (v : PyDecimal) : Int := Int.ofNat (v.num / v.den)

/-- Multiplication of a nonnegative decimal value by a Nat. -/
def pyMulNat (v : PyDecimal) (m : Nat) : PyDecimal := ⟨v.num * m, v.den⟩

/-- size_str.upper().strip() (server_info.py line 108). -/
def pyToUpperStrip (s : String) : List Char :=
  pyTrimChars (s.data.map Char.toUpper)

/-- parse_size_to_bytes (server_info.py lines 106-130): uppercase and
strip, return 0 on empty, match ^([\d.]+)([KMGT]?)$ and convert with
the base-1024 multiplier; on no match, fall back to int(float(s)) with
errors mapped to 0.  A .error result models the uncaught ValueError
float() raises on a matched group such as "1.2.3". -/
def parse_size_to_bytes (s : String) : Except Unit Int :=
  let cs := pyToUpperStrip s
  if cs.isEmpty then .ok 0
  else
    let numPart := cs.takeWhile isDigitOrDot
    let rest := cs.dropWhile isDigitOrDot
    let matched : Bool :=
      !numPart.isEmpty &&
        (rest.isEmpty ||
          (rest.length == 1 && (sizeMultiplier (rest.headD ' ')).isSome))
    if matched then
      match decimalValue numPart with
      | none => .error ()
      | some v =>
        match rest with
        | [] => .ok (pyInt v)
        | u :: _ =>
          match sizeMultiplier u with
          | some m => .ok (pyInt (pyMulNat v m))
          | none => .ok 0
    else
      match decimalValue cs with
      | some v => .ok (pyInt v)
      | none => .ok 0

/-- One parsed row of df -h output (server_info.py lines 166-173). -/
structure DiskEntry where
  filesystem : String
  size : Int
  used : Int
  available : Int
  usage_percent : PyDecimal
  mount_point : String
deriving DecidableEq

/-- Split a character list at every separator (keeping empty pieces),
the behaviour of Python str.split with an explicit separator. -/
def splitOnPred (p : Char → Bool) : List Char → List (List Char)
  | [] => [[]]
  | c :: rest =>
    let r := splitOnPred p rest
    if p c then [] :: r
    else
      match r with
      | [] => [[c]]
      | t :: ts => (c :: t) :: ts

/-- Python output.split of the newline separator. -/
def pySplitLines (s : String) : List String :=
  (splitOnPred (fun c => c == '\n') s.data).map String.mk

/-- Python str.split() with no argument: split on whitespace runs,
discarding empty tokens. -/
def pySplitWs (s : String) : List String :=
  ((splitOnPred Char.isWhitespace s.data).map String.mk).filter
    (fun t => !t.isEmpty)

/-- Python s.rstrip of a single character class, here used for
parts[4].rstrip of the percent sign (server_info.py line 152). -/
def pyRstripPercent (s : String) : String :=
  String.mk ((s.data.reverse.dropWhile (fun c => c == '%')).reverse)

/-- float(use_percent_str) with its own try/except defaulting to 0.0
(server_info.py lines 161-164). -/
def parse_use_percent (s : String) : PyDecimal :=
  match decimalValue s.data with
  | some v => v
  | none => ⟨0, 1⟩

/-- One iteration of the parse_disk_info row loop (server_info.py lines
138-179): strip, skip empty lines and rows of fewer than five fields,
convert the three size fields, and skip the row (continue) when a
conversion raises ValueError. -/
def parse_disk_row (line0 : String) : Option DiskEntry :=
  let line := pyStrip line0
  if line.isEmpty then none
  else
    let parts := pySplitWs line
    if parts.length ≥ 5 then
      match parse_size_to_bytes (parts.getD 1 ""),
            parse_size_to_bytes (parts.getD 2 ""),
            parse_size_to_bytes (parts.getD 3 "") with
      | .ok size, .ok used, .ok available =>
        some ⟨parts.getD 0 "", size, used, available,
              parse_use_percent (pyRstripPercent (parts.getD 4 "")),
              String.intercalate " " (parts.drop 5)⟩
      | _, _, _ => none
    else none

/-- parse_disk_info (server_info.py lines 133-181): strip the whole
output, split into lines, skip the header row, and collect the entries
of the rows that parse. -/
def parse_disk_info (output : String) : List DiskEntry :=
  ((pySplitLines (pyStrip output)).drop 1).filterMap parse_disk_row

/-! ## Concrete fixtures used by counterexamples and witnesses -/

/-- An oracle environment: decryption always yields "pw", no parser
succeeds, no file exists. -/
def envA : SSHEnv :=
  ⟨fun _ => some "pw", fun _ _ => none, fun _ _ => none,
   fun _ => false, id⟩

def serverA : ServerRec := ⟨1, "198.51.100.7", some 22, false⟩

/-- The same host with a jump host designated. -/
def serverJ : ServerRec := ⟨1, "198.51.100.7", some 22, true⟩

def credA : CredentialRec := ⟨2, "root", .password, some "blob", none⟩

def clientA : SSHClientObj := ⟨7, some ⟨true⟩⟩

/-- A registry entry whose transport reports itself inactive. -/
def deadEntry : ConnEntry := ⟨⟨3, some ⟨false⟩⟩, 1, 2, 0⟩

def regDead : Registry := [((1, 2), deadEntry)]

def entryNew : ConnEntry := ⟨clientA, 1, 2, 5⟩

/-- An oracle environment with one decryptable inline key that parses
as RSA and as nothing else. -/
def envRSA : SSHEnv :=
  ⟨fun _ => some "KEYCONTENT",
   fun f c =>
     if f == KeyFormat.RSA && c == "KEYCONTENT" then some ⟨f, 1⟩ else none,
   fun _ _ => none, fun _ => false, id⟩

/-- An ssh_key credential with inline encrypted content and no path. -/
def credKey : CredentialRec := ⟨3, "root", .ssh_key, some "blobK", none⟩

/-- A sample df -h block: header, a well-formed row, a malformed row
(size field "1.2.3G" makes float() raise ValueError), and another
well-formed row. -/
def sampleDf : String :=
  "Filesystem Size Used Avail Use% Mounted on\n" ++
  "/dev/sda1 50G 20G 30G 40% /\n" ++
  "tmpfs 1.2.3G 1G 1G 5% /bad\n" ++
  "/dev/sdb1 100M 10M 90M 10% /data"

/-! ## Theorems -/

theorem isEmpty_eq_false_of_ne (s : String) (h : s ≠ "") :
    s.isEmpty = false := by
  cases h2 : s.isEmpty
  · rfl
  · exact absurd ((String.isEmpty_iff s).mp h2) h

theorem get_ssh_connection_snd (r : Registry) (sid cid : Nat) :
    (get_ssh_connection r sid cid).2 = r := by
  unfold get_ssh_connection
  cases regLookup r (sid, cid) with
  | none => rfl
  | some info =>
    dsimp only
    split <;> rfl

theorem regLookup_regInsert (r : Registry) (k : Nat × Nat) (e : ConnEntry) :
    regLookup (regInsert r k e) k = some e := by
  simp [regLookup, regInsert, List.find?]

/-- Claim C7: a command that completes with a nonzero exit code yields a
normal CommandResult with success = false and the independently
captured stdout, stderr and exit code; nonzero exit is never converted
into an error response. -/
theorem C7_nonzero_exit_is_normal_result (cmd : String) (e : Int)
    (out err : String) (h : e ≠ 0) :
    execute_command cmd (.completed e out err) =
      .ok ⟨false, e, out, err, cmd⟩ := by
  have hb : (e == 0) = false := by simpa using h
  simp [execute_command, hb]

theorem C7_nonzero_exit_is_normal_result_w :
    execute_command "false" (.completed 1 "" "boom") =
      .ok ⟨false, 1, "", "boom", "false"⟩ :=
  C7_nonzero_exit_is_normal_result "false" 1 "" "boom" (by decide)

/-- Claim C10: registering a new connection over an existing
(host id, credential id) key replaces the entry; neither the put path
nor the get path closes any stored connection, and the eviction path
close_ssh_connection closes exactly the stored client and removes the
entry. -/
theorem C10_replace_never_closes (r : Registry) (sid cid : Nat)
    (oldE newE : ConnEntry)
    (h : regLookup r (sid, cid) = some oldE) :
    regLookup (registry_put r (sid, cid) newE).1 (sid, cid) = some newE ∧
    (registry_put r (sid, cid) newE).2 = [] ∧
    (get_ssh_connection r sid cid).2 = r ∧
    close_ssh_connection r sid cid =
      (r.filter (fun p => !(p.1 == (sid, cid))), [oldE.client]) := by
  refine ⟨regLookup_regInsert r (sid, cid) newE, rfl,
          get_ssh_connection_snd r sid cid, ?_⟩
  unfold close_ssh_connection
  rw [h]

theorem C10_replace_never_closes_w :
    regLookup (registry_put regDead (1, 2) entryNew).1 (1, 2) =
      some entryNew ∧
    (registry_put regDead (1, 2) entryNew).2 = [] ∧
    (get_ssh_connection regDead 1 2).2 = regDead ∧
    close_ssh_connection regDead 1 2 =
      (regDead.filter (fun p => !(p.1 == (1, 2))), [deadEntry.client]) :=
  C10_replace_never_closes regDead 1 2 deadEntry entryNew rfl

/-- Claim C2 (amended): get returns the stored connection exactly when
its transport reports itself active; with a dead transport it returns
absent, but the dead entry is NOT removed from the registry map — the
map is returned unchanged and still holds the entry. -/
theorem C2_get_liveness_no_evict (r : Registry) (sid cid : Nat)
    (info : ConnEntry) (h : regLookup r (sid, cid) = some info) :
    (clientAlive info.client = true →
      get_ssh_connection r sid cid = (some info.client, r)) ∧
    (clientAlive info.client = false →
      get_ssh_connection r sid cid = (none, r) ∧
      regLookup r (sid, cid) = some info) := by
  unfold get_ssh_connection
  rw [h]
  constructor
  · intro ha; simp [ha]
  · intro ha; simp [ha, h]

theorem C2_get_liveness_no_evict_w :
    (clientAlive deadEntry.client = true →
      get_ssh_connection regDead 1 2 = (some deadEntry.client, regDead)) ∧
    (clientAlive deadEntry.client = false →
      get_ssh_connection regDead 1 2 = (none, regDead) ∧
      regLookup regDead (1, 2) = some deadEntry) :=
  C2_get_liveness_no_evict regDead 1 2 deadEntry rfl

/-- Claim C2 counterexample: a registry holding a dead entry: get
returns absent, but afterwards the dead entry is still in the
(unchanged) map — it is not evicted, contrary to the claim. -/
theorem C2_counterexample :
    clientAlive deadEntry.client = false ∧
    get_ssh_connection regDead 1 2 = (none, regDead) ∧
    regLookup regDead (1, 2) = some deadEntry := ⟨rfl, rfl, rfl⟩

/-- Claim C1 (amended): every exit path of the paramiko ssh_terminal
teardown closes the shell channel exactly once and never closes the
pooled transport client; the asyncssh variant instead closes its
per-session SSH connection during teardown and invokes the
shell-process close in both its finally blocks. -/
theorem C1_teardown_channel_once_transport_kept :
    (∀ p : PkExitPath,
      (ssh_terminal_teardown p).count TeardownAction.closeShellChannel = 1 ∧
      (ssh_terminal_teardown p).count TeardownAction.closeTransport = 0) ∧
    (∀ hasTmp wsOpen : Bool,
      TeardownAction.closeTransport ∈
        ssh_terminal_asyncssh_teardown hasTmp wsOpen ∧
      (ssh_terminal_asyncssh_teardown hasTmp wsOpen).count
        TeardownAction.closeShellChannel = 2) := by
  constructor
  · intro p
    cases p <;> exact ⟨by decide, by decide⟩
  · intro hasTmp wsOpen
    cases hasTmp <;> cases wsOpen <;> exact ⟨by decide, by decide⟩

/-- Claim C1 counterexample: on the ordinary exit of an asyncssh
Interactive Session (no temporary key file, WebSocket already closed by
the client), teardown closes the underlying SSH connection and invokes
the shell-process close twice — refuting both the non-closure of the
transport and the exactly-once channel close. -/
theorem C1_counterexample :
    TeardownAction.closeTransport ∈
      ssh_terminal_asyncssh_teardown false false ∧
    (ssh_terminal_asyncssh_teardown false false).count
      TeardownAction.closeShellChannel = 2 := by decide

/-- Claim C3 (amended): the Factory registers the connection itself: a
successful create_ssh_connection stores the new client in the registry
under (server.id, cred.id) before returning it, so a successful open
changes the registry map. -/
theorem C3_factory_registers (env : SSHEnv) (r : Registry)
    (server : ServerRec) (cred : CredentialRec) (c : SSHClientObj)
    (now : Nat) (blob pw : String)
    (hct : cred.credential_type = .password)
    (hblob : cred.password_encrypted = some blob)
    (hdec : env.decrypt blob = some pw) (hpw : pw ≠ "")
    (hjump : server.jump_host = false) :
    create_ssh_connection env r server cred (.ok c) now =
      .ok (c, regInsert r (server.id, cred.id)
             ⟨c, server.id, cred.id, now⟩) ∧
    regLookup (regInsert r (server.id, cred.id)
        ⟨c, server.id, cred.id, now⟩) (server.id, cred.id) =
      some ⟨c, server.id, cred.id, now⟩ := by
  constructor
  · unfold create_ssh_connection
    simp [hct, hblob, hdec, hjump, pyTruthyStr, isEmpty_eq_false_of_ne pw hpw]
  · exact regLookup_regInsert r (server.id, cred.id)
      ⟨c, server.id, cred.id, now⟩

theorem C3_factory_registers_w :
    create_ssh_connection envA [] serverA credA (.ok clientA) 5 =
      .ok (clientA, regInsert [] (1, 2) entryNew) ∧
    regLookup (regInsert [] (1, 2) entryNew) (1, 2) = some entryNew :=
  C3_factory_registers envA [] serverA credA clientA 5 "blob" "pw"
    rfl rfl rfl (by decide) rfl

/-- Claim C3 counterexample: a successful open starting from the empty
registry returns a registry that now holds the new connection under
(1, 2) — the map is changed by the Factory itself, not left unchanged
for a caller to fill. -/
theorem C3_counterexample :
    create_ssh_connection envA [] serverA credA (.ok clientA) 5 =
      .ok (clientA, [((1, 2), entryNew)]) ∧
    ([((1, 2), entryNew)] : Registry) ≠ [] := by
  refine ⟨?_, by decide⟩
  rfl

/-- Claim C4: a session-start whose credential fails SSH authentication
makes the handler emit exactly one error frame carrying the
authentication-failure explanation, close the WebSocket, and leave the
registry without any entry for the pair (unchanged). -/
theorem C4_auth_failure_flow (env : SSHEnv) (r : Registry)
    (server : ServerRec) (cred : CredentialRec) (msg : String) (now : Nat)
    (blob pw : String)
    (habs : regLookup r (server.id, cred.id) = none)
    (hct : cred.credential_type = .password)
    (hblob : cred.password_encrypted = some blob)
    (hdec : env.decrypt blob = some pw) (hpw : pw ≠ "")
    (hjump : server.jump_host = false) :
    ssh_terminal_connect env r server cred (.authFail msg) now =
      ([Frame.error (authErrorMsg .password msg)], r, true, none) := by
  unfold ssh_terminal_connect get_ssh_connection
  rw [habs]
  unfold create_ssh_connection
  simp [hct, hblob, hdec, hjump, pyTruthyStr, isEmpty_eq_false_of_ne pw hpw]

theorem C4_auth_failure_flow_w :
    ssh_terminal_connect envA [] serverA credA (.authFail "Bad authentication") 0 =
      ([Frame.error (authErrorMsg .password "Bad authentication")],
       [], true, none) :=
  C4_auth_failure_flow envA [] serverA credA "Bad authentication" 0
    "blob" "pw" rfl rfl rfl rfl (by decide) rfl

/-- Claim C9 (amended): the paramiko factory fails fast with the 501
NotImplemented error on a host that designates a jump host, whatever
the network would have answered; the asyncssh factory, however, never
inspects the jump-host designation — its behaviour is identical whether
or not a jump host is designated (it connects directly). -/
theorem C9_jump_host_fail_fast (env : SSHEnv) (r : Registry)
    (server : ServerRec) (cred : CredentialRec) (net : ConnectOutcome)
    (now : Nat) (blob pw : String)
    (hjump : server.jump_host = true)
    (hct : cred.credential_type = .password)
    (hblob : cred.password_encrypted = some blob)
    (hdec : env.decrypt blob = some pw) (hpw : pw ≠ "") :
    create_ssh_connection env r server cred net now =
      .error ⟨501, "跳板机连接暂未实现"⟩ ∧
    (∀ tmpName : String,
      get_ssh_connection_async env tmpName server cred net =
        get_ssh_connection_async env tmpName
          ⟨server.id, server.host, server.port, false⟩ cred net) := by
  constructor
  · unfold create_ssh_connection
    simp [hct, hblob, hdec, hjump, pyTruthyStr, isEmpty_eq_false_of_ne pw hpw]
  · intro tmpName
    rfl

theorem C9_jump_host_fail_fast_w :
    create_ssh_connection envA [] serverJ credA (.ok clientA) 0 =
      .error ⟨501, "跳板机连接暂未实现"⟩ ∧
    (∀ tmpName : String,
      get_ssh_connection_async envA tmpName serverJ credA (.ok clientA) =
        get_ssh_connection_async envA tmpName
          ⟨serverJ.id, serverJ.host, serverJ.port, false⟩ credA
          (.ok clientA)) :=
  C9_jump_host_fail_fast envA [] serverJ credA (.ok clientA) 0 "blob" "pw"
    rfl rfl rfl rfl (by decide)

/-- Claim C9 counterexample: the asyncssh factory silently connects
directly to a host that designates a jump host — no NotImplemented
condition is raised. -/
theorem C9_counterexample :
    serverJ.jump_host = true ∧
    get_ssh_connection_async envA "/tmp/key.pem" serverJ credA
        (.ok clientA) = .ok (clientA, none) := ⟨rfl, rfl⟩

theorem receive_from_ssh_run_idle (n : Nat) :
    receive_from_ssh_run (List.replicate n PkPoll.nothingReady) =
      ([], true) := by
  induction n with
  | zero => rfl
  | succ n ih =>
    rw [List.replicate_succ]
    simp [receive_from_ssh_run, receive_from_ssh_step, ih]

/-- Claim C6 counterexample: a paramiko ssh_terminal session that stays
idle for 36001 polling iterations — more than 30 minutes at the 0.05 s
polling interval of server_ssh.py line 391 — produces no frame at all
and leaves the reader loop running: that session variant has no idle
timeout, so no idle-timeout notice is ever delivered and no transition
to closing occurs. -/
theorem C6_counterexample :
    receive_from_ssh_run (List.replicate 36001 PkPoll.nothingReady) =
      ([], true) :=
  receive_from_ssh_run_idle 36001

/-- Claim C6 (amended): in the asyncssh terminal variant, a session
whose reader observes only timed-out reads within the window and then
crosses the 30-minute idle window delivers exactly one idle-timeout
notice frame and stops the loop (whatever would have followed); the
paramiko variant has no idle timeout at all. -/
theorem C6_asyncssh_idle_exactly_one (last : ℚ) (ps : List Poll)
    (p : Poll) (qs : List Poll)
    (hticks : ∀ x ∈ ps,
      x.ev = ReadEvent.timeoutTick ∧ ¬ x.now - last > IDLE_TIMEOUT)
    (hidle : p.now - last > IDLE_TIMEOUT) :
    read_output_run last (ps ++ p :: qs) =
      [Frame.error "连接因空闲超时已关闭"] := by
  induction ps with
  | nil =>
    simp [read_output_run, read_output_step, hidle]
  | cons x xs ih =>
    have hx := hticks x (by simp)
    simp [read_output_run, read_output_step, hx.1, hx.2]
    exact ih (fun y hy => hticks y (by simp [hy]))

theorem C6_asyncssh_idle_exactly_one_w :
    read_output_run 0 ([] ++ (⟨1801, ReadEvent.timeoutTick⟩ : Poll) :: []) =
      [Frame.error "连接因空闲超时已关闭"] :=
  C6_asyncssh_idle_exactly_one 0 [] ⟨1801, ReadEvent.timeoutTick⟩ []
    (by intro x hx; exact absurd hx (List.not_mem_nil x))
    (by norm_num [IDLE_TIMEOUT])

/-- Claim C5: for an ssh_key credential with decryptable inline key
content that is validly formatted in encoding F (it parses as F and as
no earlier encoding in the fixed order RSA → ECDSA → Ed25519 → DSA),
secret resolution returns the parsed key of exactly that encoding, and
the attempt trace stops at F — no later encoding is attempted. -/
theorem C5_inline_key_fixed_order (env : SSHEnv) (cred : CredentialRec)
    (blob content : String) (F : KeyFormat) (k : ParsedKey)
    (hblob : cred.password_encrypted = some blob) (hbne : blob ≠ "")
    (hdec : env.decrypt blob = some content)
    (hF : env.parseKey F (pyStrip content) = some k)
    (hearlier : ∀ F', formatIdx F' < formatIdx F →
      env.parseKey F' (pyStrip content) = none)
    (hfmt : ∀ F' c k', env.parseKey F' c = some k' → k'.fmt = F') :
    (load_ssh_private_key env cred).1 = .ok k ∧
    k.fmt = F ∧
    (load_ssh_private_key env cred).2 =
      formatOrder.take (formatIdx F + 1) := by
  have hkfmt : k.fmt = F := hfmt F (pyStrip content) k hF
  cases F with
  | RSA =>
    refine ⟨?_, hkfmt, ?_⟩ <;>
      simp [load_ssh_private_key, hblob, isEmpty_eq_false_of_ne blob hbne,
            hdec, formatOrder, formatIdx, tryFormats, hF]
  | ECDSA =>
    have h0 := hearlier .RSA (by decide)
    refine ⟨?_, hkfmt, ?_⟩ <;>
      simp [load_ssh_private_key, hblob, isEmpty_eq_false_of_ne blob hbne,
            hdec, formatOrder, formatIdx, tryFormats, hF, h0]
  | Ed25519 =>
    have h0 := hearlier .RSA (by decide)
    have h1 := hearlier .ECDSA (by decide)
    refine ⟨?_, hkfmt, ?_⟩ <;>
      simp [load_ssh_private_key, hblob, isEmpty_eq_false_of_ne blob hbne,
            hdec, formatOrder, formatIdx, tryFormats, hF, h0, h1]
  | DSA =>
    have h0 := hearlier .RSA (by decide)
    have h1 := hearlier .ECDSA (by decide)
    have h2 := hearlier .Ed25519 (by decide)
    refine ⟨?_, hkfmt, ?_⟩ <;>
      simp [load_ssh_private_key, hblob, isEmpty_eq_false_of_ne blob hbne,
            hdec, formatOrder, formatIdx, tryFormats, hF, h0, h1, h2]

theorem C5_inline_key_fixed_order_w :
    (load_ssh_private_key envRSA credKey).1 = .ok ⟨KeyFormat.RSA, 1⟩ ∧
    (⟨KeyFormat.RSA, 1⟩ : ParsedKey).fmt = KeyFormat.RSA ∧
    (load_ssh_private_key envRSA credKey).2 =
      formatOrder.take (formatIdx KeyFormat.RSA + 1) :=
  C5_inline_key_fixed_order envRSA credKey "blobK" "KEYCONTENT"
    .RSA ⟨.RSA, 1⟩ rfl (by decide) rfl (by decide)
    (fun F' h => absurd h (Nat.not_lt_zero _))
    (by
      intro F' c k' h
      dsimp [envRSA] at h
      split at h
      · cases h; rfl
      · exact Option.noConfusion h)


theorem char_digit_toNat_bounds (c : Char) (h : c.isDigit = true) :
    48 ≤ c.toNat ∧ c.toNat ≤ 57 := by
  simp [Char.isDigit] at h
  exact ⟨UInt32.le_toNat_of_le (by decide) h.1,
         UInt32.toNat_le_of_le (by decide) h.2⟩

theorem toUpper_of_isDigit (c : Char) (h : c.isDigit = true) :
    c.toUpper = c := by
  obtain ⟨h1, h2⟩ := char_digit_toNat_bounds c h
  have hno : ¬(c.toNat ≥ 97 ∧ c.toNat ≤ 122) := by omega
  simp [Char.toUpper, hno]

theorem isWhitespace_eq_false_of_isDigit (c : Char) (h : c.isDigit = true) :
    c.isWhitespace = false := by
  obtain ⟨h1, h2⟩ := char_digit_toNat_bounds c h
  simp [Char.isWhitespace]
  and_intros <;>
  · intro hc
    subst hc
    exact absurd h1 (by decide)

theorem ne_dot_of_isDigit (c : Char) (h : c.isDigit = true) : c ≠ '.' := by
  intro hc
  subst hc
  exact absurd h (by decide)

theorem dropWhile_eq_self_of_all_false (p : Char → Bool) (l : List Char)
    (h : ∀ c ∈ l, p c = false) : l.dropWhile p = l := by
  cases l with
  | nil => rfl
  | cons x xs => simp [List.dropWhile_cons, h x (by simp)]

theorem pyTrimChars_eq_self (l : List Char)
    (h : ∀ c ∈ l, c.isWhitespace = false) : pyTrimChars l = l := by
  unfold pyTrimChars
  rw [dropWhile_eq_self_of_all_false _ _ h]
  rw [dropWhile_eq_self_of_all_false _ _
    (by intro c hc; exact h c (List.mem_reverse.mp hc))]
  exact List.reverse_reverse l

theorem takeWhile_all_append (p : Char → Bool) (ds : List Char) (u : Char)
    (h1 : ∀ c ∈ ds, p c = true) (h2 : p u = false) :
    (ds ++ [u]).takeWhile p = ds ∧ (ds ++ [u]).dropWhile p = [u] := by
  induction ds with
  | nil => simp [List.takeWhile_cons, List.dropWhile_cons, h2]
  | cons x xs ih =>
    have hx := h1 x (by simp)
    have hrec := ih (fun c hc => h1 c (by simp [hc]))
    simp [List.takeWhile_cons, List.dropWhile_cons, hx, hrec.1, hrec.2]

theorem takeWhile_all_self (p : Char → Bool) (l : List Char)
    (h : ∀ c ∈ l, p c = true) :
    l.takeWhile p = l ∧ l.dropWhile p = [] := by
  induction l with
  | nil => simp
  | cons x xs ih =>
    have hx := h x (by simp)
    have hrec := ih (fun c hc => h c (by simp [hc]))
    simp [List.takeWhile_cons, List.dropWhile_cons, hx, hrec.1, hrec.2]

theorem decimalValue_digits (ds : List Char) (hne : ds ≠ [])
    (hds : ∀ c ∈ ds, c.isDigit = true) :
    decimalValue ds = some ⟨digitsToNat ds, 1⟩ := by
  have hself := takeWhile_all_self Char.isDigit ds hds
  unfold decimalValue
  rw [if_pos]
  · rw [hself.1, hself.2]
    simp [digitsToNat]
  · refine ⟨?_, ?_, ?_⟩
    · exact List.all_eq_true.mpr (fun c hc => by simp [isDigitOrDot, hds c hc])
    · cases ds with
      | nil => exact absurd rfl hne
      | cons x xs =>
        exact List.any_eq_true.mpr ⟨x, by simp, hds x (by simp)⟩
    · have : '.' ∉ ds := by
        intro hmem
        exact absurd (hds '.' hmem) (by decide)
      simp [List.count_eq_zero.mpr this]

theorem pyInt_whole (a : Nat) : pyInt ⟨a, 1⟩ = (a : Int) := by
  simp [pyInt]

theorem map_toUpper_digits (l : List Char)
    (h : ∀ c ∈ l, c.isDigit = true) : l.map Char.toUpper = l := by
  induction l with
  | nil => rfl
  | cons x xs ih =>
    rw [List.map_cons, toUpper_of_isDigit x (h x (by simp)),
        ih (fun c hc => h c (by simp [hc]))]

theorem parse_size_suffix (s : String) (ds : List Char) (u : Char) (m : Nat)
    (hs : s.data = ds ++ [u]) (hne : ds ≠ [])
    (hds : ∀ c ∈ ds, c.isDigit = true)
    (hm : sizeMultiplier u = some m) :
    parse_size_to_bytes s = .ok ((digitsToNat ds : Int) * (m : Int)) := by
  have hu : u = 'K' ∨ u = 'M' ∨ u = 'G' ∨ u = 'T' := by
    by_contra hcon
    push_neg at hcon
    obtain ⟨k1, k2, k3, k4⟩ := hcon
    simp [sizeMultiplier, k1, k2, k3, k4] at hm
  have hu_upper : u.toUpper = u := by
    rcases hu with h | h | h | h <;> subst h <;> decide
  have hu_ws : u.isWhitespace = false := by
    rcases hu with h | h | h | h <;> subst h <;> decide
  have hu_dd : isDigitOrDot u = false := by
    rcases hu with h | h | h | h <;> subst h <;> decide
  have hmap : (ds ++ [u]).map Char.toUpper = ds ++ [u] := by
    rw [List.map_append, map_toUpper_digits ds hds]
    simp [hu_upper]
  have htrim : pyTrimChars (ds ++ [u]) = ds ++ [u] := by
    apply pyTrimChars_eq_self
    intro c hc
    rcases List.mem_append.mp hc with hcm | hcm
    · exact isWhitespace_eq_false_of_isDigit c (hds c hcm)
    · simp at hcm; subst hcm; exact hu_ws
  have hcs : pyToUpperStrip s = ds ++ [u] := by
    unfold pyToUpperStrip
    rw [hs, hmap, htrim]
  have hdd : ∀ c ∈ ds, isDigitOrDot c = true := fun c hc => by
    simp [isDigitOrDot, hds c hc]
  have hsplit := takeWhile_all_append isDigitOrDot ds u hdd hu_dd
  have hdec := decimalValue_digits ds hne hds
  simp only [parse_size_to_bytes, hcs, hsplit.1, hsplit.2]
  rw [if_neg (by simp)]
  rw [if_pos]
  · rw [hdec]
    simp only [hm]
    simp [pyMulNat, pyInt, Nat.div_one]
  · simp [hne, hm]

/-- Claim C8: every df -h size field consisting of digits followed by a
K, M, G or T suffix is converted to bytes as the numeric value times
1024, 1024^2, 1024^3 or 1024^4 respectively; and in a sample block
whose middle row is malformed (its size field "1.2.3G" makes float()
raise ValueError), the malformed row is skipped while both well-formed
rows around it are parsed. -/
theorem C8_df_sizes_and_skip :
    (∀ (s : String) (ds : List Char) (u : Char) (m : Nat),
      s.data = ds ++ [u] → ds ≠ [] → (∀ c ∈ ds, c.isDigit = true) →
      sizeMultiplier u = some m →
      parse_size_to_bytes s = .ok ((digitsToNat ds : Int) * (m : Int))) ∧
    parse_disk_info sampleDf =
      [⟨"/dev/sda1", 53687091200, 21474836480, 32212254720, ⟨40, 1⟩, "/"⟩,
       ⟨"/dev/sdb1", 104857600, 10485760, 94371840, ⟨10, 1⟩, "/data"⟩] :=
  ⟨fun s ds u m h1 h2 h3 h4 => parse_size_suffix s ds u m h1 h2 h3 h4,
   by decide⟩

theorem C8_df_sizes_and_skip_w :
    parse_size_to_bytes "50G" =
      .ok ((digitsToNat ['5', '0'] : Int) * ((1024 ^ 3 : Nat) : Int)) :=
  C8_df_sizes_and_skip.1 "50G" ['5', '0'] 'G' (1024 ^ 3) rfl (by decide)
    (by decide) (by decide)

end LTPanel
